import Mathlib

/-!
Verification development for the OCI layout composer / single-arch projector
of flatpak-oci-test-content (src/install-oci.py, src/make-test-content.py).

The Python code manipulates parsed JSON documents (dicts/lists) loaded from an
on-disk OCI image layout.  We embed the documents as a small JSON value type
and the two scripts' functions as Lean functions over layouts, with Python
exceptions modelled as error values of an explicit error type.
-/

/-- A JSON value as manipulated by the scripts: strings, integers, arrays and
objects (Python dicts keep insertion order, modelled by the field list order). -/
inductive Json where
  | str (s : String)
  | num (n : Int)
  | arr (elems : List Json)
  | obj (fields : List (String × Json))
deriving Repr

/-- Errors: Python exceptions raised by the scripts, plus the designed error
kinds named by the specification (which the scripts never actually produce,
kept here so that claims about them can be stated and settled). -/
inductive Err where
  | keyError (k : String)
  | typeError
  | indexError
  | assertionFailed
  | fileNotFound
  | jsonDecode
  | runtimeNoRef
  | fuelExhausted
  | unsupportedDigestAlgorithm
  | platformNotFound
  | duplicatePlatform
  | emptyComposition
deriving DecidableEq, Repr

mutual

/-- Structural equality of JSON values, the semantics of Python `==` on
parsed JSON documents. -/
def Json.beq : Json → Json → Bool
  | .str a, .str b => a = b
  | .num a, .num b => a = b
  | .arr a, .arr b => Json.beqArr a b
  | .obj a, .obj b => Json.beqObj a b
  | _, _ => false

/-- Elementwise equality of JSON arrays. -/
def Json.beqArr : List Json → List Json → Bool
  | [], [] => true
  | a :: as', b :: bs' => Json.beq a b && Json.beqArr as' bs'
  | _, _ => false

/-- Pairwise equality of JSON object field lists (order-sensitive, matching
`==` on Python dicts only up to the orders that actually arise here; the
scripts never compare dicts, only strings, so this case is unexercised). -/
def Json.beqObj : List (String × Json) → List (String × Json) → Bool
  | [], [] => true
  | a :: as', b :: bs' => (a.1 = b.1 : Bool) && Json.beq a.2 b.2 && Json.beqObj as' bs'
  | _, _ => false

end

mutual

/-- `Json.beq` is reflexive. -/
theorem Json.beq_refl : (j : Json) → Json.beq j j = true
  | .str s => by simp [Json.beq]
  | .num n => by simp [Json.beq]
  | .arr xs => by simp [Json.beq, Json.beqArr_refl xs]
  | .obj fs => by simp [Json.beq, Json.beqObj_refl fs]

/-- `Json.beqArr` is reflexive. -/
theorem Json.beqArr_refl : (xs : List Json) → Json.beqArr xs xs = true
  | [] => by simp [Json.beqArr]
  | x :: xs => by simp [Json.beqArr, Json.beq_refl x, Json.beqArr_refl xs]

/-- `Json.beqObj` is reflexive. -/
theorem Json.beqObj_refl : (fs : List (String × Json)) → Json.beqObj fs fs = true
  | [] => by simp [Json.beqObj]
  | f :: fs => by simp [Json.beqObj, Json.beq_refl f.2, Json.beqObj_refl fs]

end

mutual

/-- `Json.beq` implies equality. -/
theorem Json.beq_eq : (a b : Json) → Json.beq a b = true → a = b
  | .str _, .str _, h => by simpa [Json.beq] using congrArg Json.str (by simpa [Json.beq] using h)
  | .str _, .num _, h => by simp [Json.beq] at h
  | .str _, .arr _, h => by simp [Json.beq] at h
  | .str _, .obj _, h => by simp [Json.beq] at h
  | .num _, .str _, h => by simp [Json.beq] at h
  | .num _, .num _, h => by simpa [Json.beq] using congrArg Json.num (by simpa [Json.beq] using h)
  | .num _, .arr _, h => by simp [Json.beq] at h
  | .num _, .obj _, h => by simp [Json.beq] at h
  | .arr _, .str _, h => by simp [Json.beq] at h
  | .arr _, .num _, h => by simp [Json.beq] at h
  | .arr xs, .arr ys, h => by
      have := Json.beqArr_eq xs ys (by simpa [Json.beq] using h)
      simp [this]
  | .arr _, .obj _, h => by simp [Json.beq] at h
  | .obj _, .str _, h => by simp [Json.beq] at h
  | .obj _, .num _, h => by simp [Json.beq] at h
  | .obj _, .arr _, h => by simp [Json.beq] at h
  | .obj fs, .obj gs, h => by
      have := Json.beqObj_eq fs gs (by simpa [Json.beq] using h)
      simp [this]

/-- `Json.beqArr` implies equality. -/
theorem Json.beqArr_eq : (a b : List Json) → Json.beqArr a b = true → a = b
  | [], [], _ => rfl
  | [], _ :: _, h => by simp [Json.beqArr] at h
  | _ :: _, [], h => by simp [Json.beqArr] at h
  | x :: xs, y :: ys, h => by
      have h' : Json.beq x y = true ∧ Json.beqArr xs ys = true := by
        simpa [Json.beqArr, Bool.and_eq_true] using h
      rw [Json.beq_eq x y h'.1, Json.beqArr_eq xs ys h'.2]

/-- `Json.beqObj` implies equality. -/
theorem Json.beqObj_eq : (a b : List (String × Json)) → Json.beqObj a b = true → a = b
  | [], [], _ => rfl
  | [], _ :: _, h => by simp [Json.beqObj] at h
  | _ :: _, [], h => by simp [Json.beqObj] at h
  | f :: fs, g :: gs, h => by
      have h' : (f.1 = g.1 ∧ Json.beq f.2 g.2 = true) ∧ Json.beqObj fs gs = true := by
        simpa [Json.beqObj, Bool.and_eq_true, decide_eq_true_eq] using h
      have h1 : f = g := by
        cases f; cases g
        simp only [Prod.mk.injEq]
        exact ⟨h'.1.1, Json.beq_eq _ _ h'.1.2⟩
      rw [h1, Json.beqObj_eq fs gs h'.2]

end

/-- Decidable equality of JSON values through `Json.beq`. -/
instance : DecidableEq Json := fun a b =>
  decidable_of_iff (Json.beq a b = true)
    ⟨Json.beq_eq a b, fun h => h ▸ Json.beq_refl a⟩

namespace Json

/-- Python `d[k]` on a parsed JSON value: KeyError when the key is absent,
TypeError when the value is not a dict.  Lookup takes the first occurrence
(dicts cannot hold duplicate keys). -/
def get? : Json → String → Except Err Json
  | .obj fields, k =>
    match fields.find? (fun p => p.1 = k) with
    | some p => .ok p.2
    | none => .error (.keyError k)
  | _, _ => .error .typeError

/-- Python `d.get(k)`: None (none) when absent, TypeError when not a dict. -/
def getOpt : Json → String → Except Err (Option Json)
  | .obj fields, k =>
    match fields.find? (fun p => p.1 = k) with
    | some p => .ok (some p.2)
    | none => .ok none
  | _, _ => .error .typeError

/-- Python `d.get(k, default)`. -/
def getD (j : Json) (k : String) (dflt : Json) : Except Err Json :=
  match j.getOpt k with
  | .ok (some v) => .ok v
  | .ok none => .ok dflt
  | .error e => .error e

/-- Replace the value of key `k` (first occurrence, keeping its position —
Python dict assignment to an existing key keeps insertion order) or append
the pair at the end; TypeError when the value is not a dict. -/
def setE : Json → String → Json → Except Err Json
  | .obj fields, k, v =>
    let rec go : List (String × Json) → List (String × Json)
      | [] => [(k, v)]
      | p :: ps => if p.1 = k then (k, v) :: ps else p :: go ps
    .ok (.obj (go fields))
  | _, _, _ => .error .typeError

/-- Python `lst[0]` on a parsed JSON value: IndexError on an empty list,
TypeError when the value is not a list. -/
def idx0 : Json → Except Err Json
  | .arr [] => .error .indexError
  | .arr (x :: _) => .ok x
  | _ => .error .typeError

/-- Python iteration `for x in lst`: TypeError when the value is not a list. -/
def asList : Json → Except Err (List Json)
  | .arr xs => .ok xs
  | _ => .error .typeError

end Json

/-- Hex digit for `\uXXXX` escapes (lowercase, as CPython emits). -/
def hexDigit (n : Nat) : Char :=
  if n < 10 then Char.ofNat (48 + n) else Char.ofNat (87 + n)

/-- Four-digit lowercase hex, as in CPython's `\uXXXX` escapes. -/
def hex4 (n : Nat) : String :=
  String.mk [hexDigit (n / 4096 % 16), hexDigit (n / 256 % 16),
             hexDigit (n / 16 % 16), hexDigit (n % 16)]

/-- Escape one character the way `json.dumps` (ensure_ascii=True) does. -/
def escChar (c : Char) : String :=
  if c = '"' then "\\\""
  else if c = '\\' then "\\\\"
  else if c = Char.ofNat 8 then "\\b"
  else if c = Char.ofNat 9 then "\\t"
  else if c = Char.ofNat 10 then "\\n"
  else if c = Char.ofNat 12 then "\\f"
  else if c = Char.ofNat 13 then "\\r"
  else if c.toNat < 32 ∨ c.toNat ≥ 127 then
    if c.toNat < 65536 then "\\u" ++ hex4 c.toNat
    else "\\u" ++ hex4 (55296 + (c.toNat - 65536) / 1024) ++
         "\\u" ++ hex4 (56320 + (c.toNat - 65536) % 1024)
  else String.singleton c

/-- Escape a whole string as `json.dumps` does (output is pure ASCII, so its
character count equals its UTF-8 byte count). -/
def escString (s : String) : String :=
  String.join (s.data.map escChar)

/-- JSON string literal: quotes around the escaped contents. -/
def quoteStr (s : String) : String :=
  "\"" ++ escString s ++ "\""

/-- Indentation of `4 * lvl` spaces, as `json.dump(..., indent=4)` uses. -/
def pad (lvl : Nat) : String :=
  String.mk (List.replicate (4 * lvl) ' ')

mutual

/-- Serialization replicating Python `json.dumps(value, indent=4)`:
keys in insertion order, item separator a comma + newline, key separator
a colon + space, empty containers rendered inline. -/
def dumpsJson : Json → Nat → String
  | .str s, _ => quoteStr s
  | .num n, _ => toString n
  | .arr [], _ => "[]"
  | .arr (x :: xs), lvl =>
      "[\n" ++ pad (lvl + 1) ++ dumpsJson x (lvl + 1) ++ dumpsArr xs (lvl + 1) ++
      "\n" ++ pad lvl ++ "]"
  | .obj [], _ => "\x7b\x7d"
  | .obj (p :: ps), lvl =>
      "\x7b\n" ++ pad (lvl + 1) ++ quoteStr p.1 ++ ": " ++ dumpsJson p.2 (lvl + 1) ++
      dumpsObj ps (lvl + 1) ++ "\n" ++ pad lvl ++ "\x7d"

/-- Remaining array items, each preceded by ",\n" and indentation. -/
def dumpsArr : List Json → Nat → String
  | [], _ => ""
  | x :: xs, lvl => ",\n" ++ pad lvl ++ dumpsJson x lvl ++ dumpsArr xs lvl

/-- Remaining object items, each preceded by ",\n" and indentation. -/
def dumpsObj : List (String × Json) → Nat → String
  | [], _ => ""
  | p :: ps, lvl =>
      ",\n" ++ pad lvl ++ quoteStr p.1 ++ ": " ++ dumpsJson p.2 lvl ++ dumpsObj ps lvl

end

example : dumpsJson (.obj [("a", .num 1), ("b", .arr [.str "x"])]) 0 =
    "\x7b\n    \"a\": 1,\n    \"b\": [\n        \"x\"\n    ]\n\x7d" := by decide

example : dumpsJson (.obj []) 0 = "\x7b\x7d" := by decide

/-! ## Layouts and the blob store -/

/-- Contents of one blob file: a JSON document (stored parsed; its on-disk
bytes are its serialization) or opaque binary data such as a layer tarball.
Blobs this code itself writes as serialized JSON are stored as `.bin` of the
exact byte string written. -/
inductive BlobContent where
  | json (doc : Json)
  | bin (data : String)
deriving Repr

/-- Equality test for blob contents. -/
def BlobContent.beq : BlobContent → BlobContent → Bool
  | .json a, .json b => a = b
  | .bin a, .bin b => a = b
  | _, _ => false

/-- Decidable equality of blob contents. -/
instance : DecidableEq BlobContent := fun a b =>
  decidable_of_iff (BlobContent.beq a b = true) (by
    cases a <;> cases b <;> simp [BlobContent.beq])

/-- An on-disk OCI image layout: the oci-layout marker document, the parsed
top-level index.json, and the blobs/sha256 directory as a list of
(hex digest filename, contents) pairs. -/
structure Layout where
  ociLayout : Json
  index : Json
  blobs : List (String × BlobContent)
deriving Repr

/-- Equality test for layouts. -/
def Layout.beq (a b : Layout) : Bool :=
  a.ociLayout = b.ociLayout ∧ a.index = b.index ∧ a.blobs = b.blobs

/-- Decidable equality of layouts. -/
instance : DecidableEq Layout := fun a b =>
  decidable_of_iff (Layout.beq a b = true) (by
    cases a; cases b
    simp [Layout.beq, Layout.mk.injEq, and_assoc])

/-- Look a blob up by its hex digest filename (first occurrence). -/
def lookupBlob : List (String × BlobContent) → String → Option BlobContent
  | [], _ => none
  | p :: ps, hex => if p.1 = hex then some p.2 else lookupBlob ps hex

/-- Write a blob file: overwrite the entry with this filename if present
(keeping its position), otherwise create it at the end. -/
def storeInsert (blobs : List (String × BlobContent)) (hex : String) (c : BlobContent) :
    List (String × BlobContent) :=
  match blobs with
  | [] => [(hex, c)]
  | p :: ps => if p.1 = hex then (hex, c) :: ps else p :: storeInsert ps hex c

/-- Copy every blob file of `src` into `dest` in order (the composer's
`for blob in (input_dir / "blobs/sha256").iterdir(): shutil.copyfile(...)`). -/
def copyAllBlobs (dest src : List (String × BlobContent)) : List (String × BlobContent) :=
  src.foldl (fun acc p => storeInsert acc p.1 p.2) dest

/-! ## src/install-oci.py -/

/-- The media type string tested at install-oci.py line 94 and written by the
composer. -/
def imageIndexMedia : String := "application/vnd.oci.image.index.v1+json"

/-- The OCI image manifest media type (appears in layouts, never tested by
the scripts; used to build example layouts). -/
def imageManifestMedia : String := "application/vnd.oci.image.manifest.v1+json"

/-- install-oci.py `get_path_from_descriptor(base, descriptor)`: asserts the
digest starts with "sha256:" (AssertionError otherwise — a bare assert, not a
designed error kind) and returns base/blobs/sha256/hex. -/
def get_path_from_descriptor (base : String) (descriptor : Json) : Except Err String := do
  let dg ← descriptor.get? "digest"
  match dg with
  | .str s =>
    if s.take 7 = "sha256:" then
      .ok (base ++ "/blobs/sha256/" ++ s.drop 7)
    else
      .error .assertionFailed
  | _ => .error .typeError

/-- make-test-content.py `blob_path(base, descriptor)`: asserts
descriptor["digest"][:7] == "sha256:" and returns base / "blobs/sha256" / hex.
Same digest handling as `get_path_from_descriptor`, in the other script. -/
def blob_path (base : String) (descriptor : Json) : Except Err String := do
  let dg ← descriptor.get? "digest"
  match dg with
  | .str s =>
    if s.take 7 = "sha256:" then
      .ok (base ++ "/blobs/sha256/" ++ s.drop 7)
    else
      .error .assertionFailed
  | _ => .error .typeError

/-- The hex digest filename a descriptor resolves to inside the blob store
(the path computation of `get_path_from_descriptor` minus the base prefix). -/
def descriptorHex (descriptor : Json) : Except Err String := do
  let dg ← descriptor.get? "digest"
  match dg with
  | .str s =>
    if s.take 7 = "sha256:" then .ok (s.drop 7) else .error .assertionFailed
  | _ => .error .typeError

/-- Open the blob file a descriptor resolves to inside a blob store and
`json.load` it: FileNotFoundError when the blob is absent, JSONDecodeError
when its contents are not a JSON document. -/
def readJsonBlobStore (blobs : List (String × BlobContent)) (descriptor : Json) :
    Except Err Json := do
  let hex ← descriptorHex descriptor
  match lookupBlob blobs hex with
  | some (.json doc) => .ok doc
  | some (.bin _) => .error .jsonDecode
  | none => .error .fileNotFound

/-- Open the blob file a descriptor resolves to in a layout and `json.load`
it. -/
def readJsonBlob (layout : Layout) (descriptor : Json) : Except Err Json :=
  readJsonBlobStore layout.blobs descriptor

/-- The loop condition's left side at install-oci.py line 53:
`manifest["platform"]["architecture"]`. -/
def declaredArch (m : Json) : Except Err Json := do
  let p ← m.get? "platform"
  p.get? "architecture"

/-- The loop of make_single_arch_copy (install-oci.py lines 52-58) followed by
the final index write (lines 60-61): scan the nested image index manifests in
order; at the first element whose declared platform architecture equals the
resolved architecture, copy its blob from the source store into the
destination store and replace the destination index manifests with just that
element; when no element matches, fall through and write the destination
index unchanged. -/
def projectLoop (srcBlobs : List (String × BlobContent)) (skDest : Layout)
    (newIndex : Json) (arch : Json) : List Json → Except Err Layout
  | [] => .ok { skDest with index := newIndex }
  | m :: rest => do
    let a ← declaredArch m
    if Json.beq a arch then do
      let hex ← descriptorHex m
      match lookupBlob srcBlobs hex with
      | none => .error .fileNotFound
      | some c => do
        let idx2 ← newIndex.setE "manifests" (.arr [m])
        .ok { skDest with
              blobs := storeInsert skDest.blobs hex c,
              index := idx2 }
    else
      projectLoop srcBlobs skDest newIndex arch rest

/-- Body of make_single_arch_copy after the source's first index entry has
been read (install-oci.py lines 40-61): load the nested multi-arch image
index from the source blob store, resolve the architecture of the image
skopeo selected from the destination's own config, and run the matching
loop. -/
def make_single_arch_copy_core (srcBlobs : List (String × BlobContent)) (om0 : Json)
    (skDest : Layout) : Except Err Layout := do
  let image_index_json ← readJsonBlobStore srcBlobs om0
  let newIndex := skDest.index
  let nms ← newIndex.get? "manifests"
  let nm0 ← nms.idx0
  let new_manifest_json ← readJsonBlob skDest nm0
  let cdesc ← new_manifest_json.get? "config"
  let config ← readJsonBlob skDest cdesc
  let architecture ← config.get? "architecture"
  let iims ← image_index_json.get? "manifests"
  let msList ← iims.asList
  projectLoop srcBlobs skDest newIndex architecture msList

/-- install-oci.py `make_single_arch_copy(source_path, dest_path)`.  The
initial `skopeo copy --multi-arch=system` is an external tool; its output
layout at dest_path is the `skDest` parameter.  The function reads the first
entry of the source's top-level index and continues with
`make_single_arch_copy_core`. -/
def make_single_arch_copy (source skDest : Layout) : Except Err Layout := do
  let oms ← source.index.get? "manifests"
  let om0 ← oms.idx0
  make_single_arch_copy_core source.blobs om0 skDest

/-! ## Installer._install_from_path -/

/-- External commands the installer runs from `_install_from_path`:
the skopeo-based single-arch copy step (which derives a new layout in a
temporary directory), `flatpak build-import-bundle`, `flatpak update` and
`flatpak install`. -/
inductive Cmd where
  | singleArchCopy
  | importBundle (ref : String)
  | flatpakUpdate (ref : String)
  | flatpakInstall (ref : String)
deriving DecidableEq, Repr

/-- install-oci.py lines 101-107: `config_json.get("config", {})`,
`config.get("Labels", {})`, `labels.get("org.flatpak.ref")`. -/
def refLookup (config_json : Json) : Except Err (Option Json) := do
  let config ← config_json.getD "config" (.obj [])
  let labels ← config.getD "Labels" (.obj [])
  labels.getOpt "org.flatpak.ref"

/-- install-oci.py lines 119-120: `parts = ref.split("/")`;
`shortref = parts[0] + "/" + parts[1]` — IndexError when the ref has no
slash. -/
def shortRef (ref : String) : Except Err String :=
  match ref.splitOn "/" with
  | p0 :: p1 :: _ => .ok (p0 ++ "/" ++ p1)
  | _ => .error .indexError

/-- install-oci.py `Installer._install_from_path(source_path)`.

The two external collaborators are parameters: `sk` maps a source layout to
the layout `skopeo copy --multi-arch=system` materializes from it (the
function hands skopeo the whole source directory), and `origin` is the
origin reported by `flatpak info --user -o shortref` (none when that command
fails).  `fuel` bounds the recursion of line 98; the Python recursion has no
such bound.  The result is the list of external commands executed, in order,
paired with the exception terminating the run, if any. -/
def installFromPath (sk : Layout → Layout) (origin : String → Option String) :
    Nat → Layout → List Cmd × Option Err
  | 0, _ => ([], some .fuelExhausted)
  | fuel + 1, L =>
    match (do
        let ms ← L.index.get? "manifests"
        let m0 ← ms.idx0
        readJsonBlob L m0 : Except Err Json) with
    | .error e => ([], some e)
    | .ok manifest_json =>
      match manifest_json.get? "mediaType" with
      | .error e => ([], some e)
      | .ok mt =>
        if Json.beq mt (.str imageIndexMedia) then
          match make_single_arch_copy L (sk L) with
          | .error e => (Cmd.singleArchCopy :: [], some e)
          | .ok L2 =>
            let r := installFromPath sk origin fuel L2
            (Cmd.singleArchCopy :: r.1, r.2)
        else
          match (do
              let cd ← manifest_json.get? "config"
              readJsonBlob L cd : Except Err Json) with
          | .error e => ([], some e)
          | .ok config_json =>
            match refLookup config_json with
            | .error e => ([], some e)
            | .ok none => ([], some .runtimeNoRef)
            | .ok (some (Json.str ref)) =>
              match shortRef ref with
              | .error e => (Cmd.importBundle ref :: [], some e)
              | .ok short =>
                if origin short = some "flatpak-module-tools" then
                  (Cmd.importBundle ref :: Cmd.flatpakUpdate ref :: [], none)
                else
                  (Cmd.importBundle ref :: Cmd.flatpakInstall ref :: [], none)
            | .ok (some _) => ([], some .typeError)

/-! ## make-test-content.py: make_multiarch_image -/

/-- make-test-content.py lines 168-179 for one input layout: read the input's
top-level index, take its first manifest descriptor, load the manifest and
its config, and return a copy of the descriptor with "platform" set to the
config's os and architecture. -/
def inputDescriptor (input : Layout) : Except Err Json := do
  let input_image_index := input.index
  let ms ← input_image_index.get? "manifests"
  let manifest_descriptor ← ms.idx0
  let manifest ← readJsonBlob input manifest_descriptor
  let cdesc ← manifest.get? "config"
  let config ← readJsonBlob input cdesc
  let osv ← config.get? "os"
  let archv ← config.get? "architecture"
  manifest_descriptor.setE "platform" (.obj [("os", osv), ("architecture", archv)])

/-- The loop of make_multiarch_image (lines 164-179): for each input layout,
copy all of its blob files into the destination store, then append its
resolved descriptor to the manifests accumulator. -/
def composeFold (acc : List (String × BlobContent) × List Json) :
    List (String × Layout) → Except Err (List (String × BlobContent) × List Json)
  | [] => .ok acc
  | p :: rest => do
    let blobs := copyAllBlobs acc.1 p.2.blobs
    let d ← inputDescriptor p.2
    composeFold (blobs, acc.2 ++ [d]) rest

/-- The image index document the composer accumulates (lines 158-162 plus the
appends of line 179): insertion order schemaVersion, mediaType, manifests. -/
def imageIndexDoc (manifests : List Json) : Json :=
  .obj [("schemaVersion", .num 2),
        ("mediaType", .str imageIndexMedia),
        ("manifests", .arr manifests)]

/-- Tail of make_multiarch_image (lines 151-198 around the loop): the
oci-layout marker, the serialization of the accumulated image index with
`json.dumps(..., indent=4)`, the blob file named by its digest, and the
top-level index whose single descriptor records that digest — with `size`
set to `len(image_index_digest)`, the length of the hex digest string,
exactly as the source does at line 193.  `hash` is the SHA-256 hex digest
function (`hashlib.sha256(...).hexdigest()`), kept abstract. -/
def finishImage (hash : String → String) (blobs : List (String × BlobContent))
    (manifests : List Json) : Layout :=
  let image_index := imageIndexDoc manifests
  let image_index_contents := dumpsJson image_index 0
  let image_index_digest := hash image_index_contents
  let blobs2 := storeInsert blobs image_index_digest (.bin image_index_contents)
  let archive_index : Json :=
    .obj [("schemaVersion", .num 2),
          ("mediaType", .str imageIndexMedia),
          ("manifests", .arr [
            .obj [("mediaType", .str imageIndexMedia),
                  ("digest", .str ("sha256:" ++ image_index_digest)),
                  ("size", .num image_index_digest.length)]])]
  { ociLayout := .obj [("imageLayoutVersion", .str "1.0.0")],
    index := archive_index,
    blobs := blobs2 }

/-- make-test-content.py `make_multiarch_image(output_dir, images)`: run the
per-input loop from the empty destination store, then finish the layout. -/
def make_multiarch_image (hash : String → String) (images : List (String × Layout)) :
    Except Err Layout := do
  let (blobs, manifests) ← composeFold ([], []) images
  .ok (finishImage hash blobs manifests)

/-! ## Concrete example layouts

Small but fully structured layouts used to evaluate the operations on
closed inputs.  Digest hex strings are abbreviated stand-ins for 64-char
SHA-256 payloads; nothing in the scripts inspects their length. -/

/-- The OCI config media type string (appears inside example descriptors). -/
def configMedia : String := "application/vnd.oci.image.config.v1+json"

/-- The OCI layer media type string (appears inside example descriptors). -/
def layerMedia : String := "application/vnd.oci.image.layer.v1.tar+gzip"

/-- The oci-layout marker document. -/
def markerDoc : Json := .obj [("imageLayoutVersion", .str "1.0.0")]

/-- Example amd64 config document, with the org.flatpak.ref label. -/
def cfgAmdDoc : Json :=
  .obj [("architecture", .str "amd64"),
        ("os", .str "linux"),
        ("config", .obj [("Labels",
          .obj [("org.flatpak.ref", .str "app/net.fishsoup.Hello/x86_64/stable")])])]

/-- Example arm64 config document, with the org.flatpak.ref label. -/
def cfgArmDoc : Json :=
  .obj [("architecture", .str "arm64"),
        ("os", .str "linux"),
        ("config", .obj [("Labels",
          .obj [("org.flatpak.ref", .str "app/net.fishsoup.Hello/aarch64/stable")])])]

/-- Example armv7 config document (platform absent from the example index). -/
def cfgArmv7Doc : Json :=
  .obj [("architecture", .str "armv7"),
        ("os", .str "linux"),
        ("config", .obj [("Labels",
          .obj [("org.flatpak.ref", .str "app/net.fishsoup.Hello/arm/stable")])])]

/-- Example amd64 image manifest document. -/
def manifestAmdDoc : Json :=
  .obj [("schemaVersion", .num 2),
        ("mediaType", .str imageManifestMedia),
        ("config", .obj [("mediaType", .str configMedia),
                         ("digest", .str "sha256:cfga"), ("size", .num 50)]),
        ("layers", .arr [.obj [("mediaType", .str layerMedia),
                               ("digest", .str "sha256:laya"), ("size", .num 10)]])]

/-- Example arm64 image manifest document. -/
def manifestArmDoc : Json :=
  .obj [("schemaVersion", .num 2),
        ("mediaType", .str imageManifestMedia),
        ("config", .obj [("mediaType", .str configMedia),
                         ("digest", .str "sha256:cfgb"), ("size", .num 50)]),
        ("layers", .arr [.obj [("mediaType", .str layerMedia),
                               ("digest", .str "sha256:layb"), ("size", .num 10)]])]

/-- Descriptor of the amd64 manifest inside the multi-arch image index,
carrying an annotations map. -/
def mAmd : Json :=
  .obj [("mediaType", .str imageManifestMedia),
        ("digest", .str "sha256:aaa1"),
        ("size", .num 100),
        ("annotations", .obj [("org.opencontainers.image.ref.name",
                               .str "app/net.fishsoup.Hello/x86_64/stable")]),
        ("platform", .obj [("architecture", .str "amd64"), ("os", .str "linux")])]

/-- Descriptor of the arm64 manifest inside the multi-arch image index,
carrying an annotations map. -/
def mArm : Json :=
  .obj [("mediaType", .str imageManifestMedia),
        ("digest", .str "sha256:bbb1"),
        ("size", .num 100),
        ("annotations", .obj [("org.opencontainers.image.ref.name",
                               .str "app/net.fishsoup.Hello/aarch64/stable")]),
        ("platform", .obj [("architecture", .str "arm64"), ("os", .str "linux")])]

/-- Example nested multi-arch image index listing amd64 and arm64. -/
def nestedIndexDoc : Json :=
  .obj [("schemaVersion", .num 2),
        ("mediaType", .str imageIndexMedia),
        ("manifests", .arr [mAmd, mArm])]

/-- Example multi-arch source layout. -/
def srcMulti : Layout :=
  { ociLayout := markerDoc,
    index := .obj [("schemaVersion", .num 2),
                   ("manifests", .arr [.obj [("mediaType", .str imageIndexMedia),
                                             ("digest", .str "sha256:idx1"),
                                             ("size", .num 300)]])],
    blobs := [("idx1", .json nestedIndexDoc),
              ("aaa1", .json manifestAmdDoc),
              ("bbb1", .json manifestArmDoc),
              ("cfga", .json cfgAmdDoc),
              ("cfgb", .json cfgArmDoc),
              ("laya", .bin "LAYER-AMD"),
              ("layb", .bin "LAYER-ARM")] }

/-- The manifest document skopeo re-encodes for the arm64 image (annotations
lost, stored under skopeo's own digest skb1). -/
def skManifestArm : Json :=
  .obj [("schemaVersion", .num 2),
        ("mediaType", .str imageManifestMedia),
        ("config", .obj [("mediaType", .str configMedia),
                         ("digest", .str "sha256:cfgb"), ("size", .num 50)]),
        ("layers", .arr [.obj [("mediaType", .str layerMedia),
                               ("digest", .str "sha256:layb"), ("size", .num 10)]])]

/-- The destination layout skopeo materializes when the system platform is
linux/arm64: the selected image's config and layer blobs, skopeo's own
re-encoded manifest, and a fresh top-level index pointing at it. -/
def skArm : Layout :=
  { ociLayout := markerDoc,
    index := .obj [("schemaVersion", .num 2),
                   ("manifests", .arr [.obj [("mediaType", .str imageManifestMedia),
                                             ("digest", .str "sha256:skb1"),
                                             ("size", .num 90)]])],
    blobs := [("skb1", .json skManifestArm),
              ("cfgb", .json cfgArmDoc),
              ("layb", .bin "LAYER-ARM")] }

/-- The manifest document skopeo would produce for an armv7 image whose
architecture is absent from the example multi-arch index. -/
def skManifestV7 : Json :=
  .obj [("schemaVersion", .num 2),
        ("mediaType", .str imageManifestMedia),
        ("config", .obj [("mediaType", .str configMedia),
                         ("digest", .str "sha256:cfgv"), ("size", .num 50)]),
        ("layers", .arr [.obj [("mediaType", .str layerMedia),
                               ("digest", .str "sha256:layv"), ("size", .num 10)]])]

/-- A skopeo destination whose resolved config architecture (armv7) matches
no element of the example multi-arch index. -/
def skArmv7 : Layout :=
  { ociLayout := markerDoc,
    index := .obj [("schemaVersion", .num 2),
                   ("manifests", .arr [.obj [("mediaType", .str imageManifestMedia),
                                             ("digest", .str "sha256:skb2"),
                                             ("size", .num 91)]])],
    blobs := [("skb2", .json skManifestV7),
              ("cfgv", .json cfgArmv7Doc),
              ("layv", .bin "LAYER-V7")] }

/-- Manifest descriptor of the example single-arch x86_64 input layout
(no platform field, as bundle-builder output has none). -/
def mX86single : Json :=
  .obj [("mediaType", .str imageManifestMedia),
        ("digest", .str "sha256:aaa1"),
        ("size", .num 100),
        ("annotations", .obj [("org.opencontainers.image.ref.name",
                               .str "app/net.fishsoup.Hello/x86_64/stable")])]

/-- Manifest descriptor of the example single-arch aarch64 input layout. -/
def mArmSingle : Json :=
  .obj [("mediaType", .str imageManifestMedia),
        ("digest", .str "sha256:bbb1"),
        ("size", .num 100),
        ("annotations", .obj [("org.opencontainers.image.ref.name",
                               .str "app/net.fishsoup.Hello/aarch64/stable")])]

/-- Example single-arch x86_64 input layout for the composer. -/
def demoX86 : Layout :=
  { ociLayout := markerDoc,
    index := .obj [("schemaVersion", .num 2), ("manifests", .arr [mX86single])],
    blobs := [("aaa1", .json manifestAmdDoc),
              ("cfga", .json cfgAmdDoc),
              ("laya", .bin "LAYER-AMD")] }

/-- Example single-arch aarch64 input layout for the composer. -/
def demoArm : Layout :=
  { ociLayout := markerDoc,
    index := .obj [("schemaVersion", .num 2), ("manifests", .arr [mArmSingle])],
    blobs := [("bbb1", .json manifestArmDoc),
              ("cfgb", .json cfgArmDoc),
              ("layb", .bin "LAYER-ARM")] }

/-- A config document with no Labels mapping at all. -/
def cfgNoLabelsDoc : Json :=
  .obj [("architecture", .str "amd64"), ("os", .str "linux"), ("config", .obj [])]

/-- A manifest document whose config has no Labels. -/
def manifestNoLabelsDoc : Json :=
  .obj [("schemaVersion", .num 2),
        ("mediaType", .str imageManifestMedia),
        ("config", .obj [("mediaType", .str configMedia),
                         ("digest", .str "sha256:cfgn"), ("size", .num 40)]),
        ("layers", .arr [.obj [("mediaType", .str layerMedia),
                               ("digest", .str "sha256:laya"), ("size", .num 10)]])]

/-- A single-arch layout whose config document carries no org.flatpak.ref
label (Labels absent entirely). -/
def demoNoRef : Layout :=
  { ociLayout := markerDoc,
    index := .obj [("schemaVersion", .num 2),
                   ("manifests", .arr [.obj [("mediaType", .str imageManifestMedia),
                                             ("digest", .str "sha256:nnn1"),
                                             ("size", .num 80)]])],
    blobs := [("nnn1", .json manifestNoLabelsDoc),
              ("cfgn", .json cfgNoLabelsDoc),
              ("laya", .bin "LAYER-AMD")] }

/-- A layout whose top-level index descriptor declares the image-manifest
media type while the blob it references is an image-index document — the two
disagree, and the code checks only the referenced document. -/
def mismatchLayout : Layout :=
  { ociLayout := markerDoc,
    index := .obj [("schemaVersion", .num 2),
                   ("manifests", .arr [.obj [("mediaType", .str imageManifestMedia),
                                             ("digest", .str "sha256:idx1"),
                                             ("size", .num 300)]])],
    blobs := srcMulti.blobs }

/-- A stand-in SHA-256 hex digest function for closed evaluations: constant,
64 hex characters, as `hashlib.sha256(...).hexdigest()` always returns. -/
def h0 : String → String := fun _ =>
  "0000000000000000000000000000000000000000000000000000000000000000"

/-- A descriptor whose digest uses an algorithm other than sha256. -/
def d512 : Json := .obj [("digest", .str "sha512:abc"), ("size", .num 5)]

/-! ## Basic lemmas -/

/-- Decidable equality of operation results. -/
instance {ε α : Type} [DecidableEq ε] [DecidableEq α] : DecidableEq (Except ε α) := fun a b =>
  match a, b with
  | .error e, .error f => decidable_of_iff (e = f) (by simp)
  | .ok x, .ok y => decidable_of_iff (x = y) (by simp)
  | .error _, .ok _ => isFalse (by simp)
  | .ok _, .error _ => isFalse (by simp)

/-- Reading back the blob file just written finds the written contents. -/
theorem lookupBlob_storeInsert_self (bs : List (String × BlobContent)) (k : String)
    (c : BlobContent) : lookupBlob (storeInsert bs k c) k = some c := by
  induction bs with
  | nil => simp [storeInsert, lookupBlob]
  | cons p ps ih =>
    by_cases h : p.1 = k
    · simp [storeInsert, h, lookupBlob]
    · simpa [storeInsert, h, lookupBlob] using ih

/-- Writing one blob file leaves every other blob file unchanged. -/
theorem lookupBlob_storeInsert_ne (bs : List (String × BlobContent)) (k k' : String)
    (c : BlobContent) (h : k' ≠ k) :
    lookupBlob (storeInsert bs k c) k' = lookupBlob bs k' := by
  induction bs with
  | nil => simp [storeInsert, lookupBlob, Ne.symm h]
  | cons p ps ih =>
    by_cases hp : p.1 = k
    · have hne : p.1 ≠ k' := by rw [hp]; exact Ne.symm h
      simp [storeInsert, hp, lookupBlob, Ne.symm h, hne]
    · by_cases hp' : p.1 = k'
      · simp [storeInsert, hp, lookupBlob, hp', h]
      · simpa [storeInsert, hp, lookupBlob, hp'] using ih

/-- After a dict assignment, lookup of the assigned key yields the assigned
value. -/
theorem get?_setE (j j2 v : Json) (k : String) (h : j.setE k v = .ok j2) :
    j2.get? k = .ok v := by
  cases j with
  | str s => simp [Json.setE] at h
  | num n => simp [Json.setE] at h
  | arr xs => simp [Json.setE] at h
  | obj fields =>
    simp only [Json.setE, Except.ok.injEq] at h
    subst h
    simp only [Json.get?]
    induction fields with
    | nil => simp [Json.setE.go, List.find?]
    | cons p ps ih =>
      by_cases hp : p.1 = k
      · simp [Json.setE.go, hp, List.find?]
      · simpa [Json.setE.go, hp, List.find?] using ih

/-- Reading a blob consults only the blob store of the layout. -/
theorem readJsonBlob_congr (L M : Layout) (d : Json) (h : L.blobs = M.blobs) :
    readJsonBlob L d = readJsonBlob M d := by
  simp [readJsonBlob, h]

/-! ## Projector lemmas -/

/-- Unfolding make_single_arch_copy down to its matching loop, given the
successful reads it performs first. -/
theorem msac_unfold (source skDest : Layout) (oms om0 iij nms nm0 nmj cdesc config arch : Json)
    (ms : List Json)
    (h1 : source.index.get? "manifests" = .ok oms)
    (h2 : oms.idx0 = .ok om0)
    (h3 : readJsonBlobStore source.blobs om0 = .ok iij)
    (h4 : skDest.index.get? "manifests" = .ok nms)
    (h5 : nms.idx0 = .ok nm0)
    (h6 : readJsonBlob skDest nm0 = .ok nmj)
    (h7 : nmj.get? "config" = .ok cdesc)
    (h8 : readJsonBlob skDest cdesc = .ok config)
    (h9 : config.get? "architecture" = .ok arch)
    (h10 : iij.get? "manifests" = .ok (.arr ms)) :
    make_single_arch_copy source skDest =
      projectLoop source.blobs skDest skDest.index arch ms := by
  simp [make_single_arch_copy, make_single_arch_copy_core, h1, h2, h3, h4, h5, h6, h7,
        h8, h9, h10, Json.asList, bind, Except.bind]

/-- The matching loop skips every leading element whose declared platform
architecture resolves but differs from the target. -/
theorem projectLoop_skip (srcBlobs : List (String × BlobContent)) (skDest : Layout)
    (newIndex arch : Json) (pre rest : List Json)
    (hpre : ∀ x ∈ pre, ∃ ax, declaredArch x = .ok ax ∧ Json.beq ax arch = false) :
    projectLoop srcBlobs skDest newIndex arch (pre ++ rest) =
      projectLoop srcBlobs skDest newIndex arch rest := by
  induction pre with
  | nil => simp
  | cons x xs ih =>
    obtain ⟨ax, hax, hb⟩ := hpre x (by simp)
    have hrest := ih (fun y hy => hpre y (by simp [hy]))
    simp [projectLoop, hax, hb, bind, Except.bind, hrest]

/-- At a matching element, the loop copies the selected manifest blob into
the destination store and rewrites the destination index manifests to just
that element. -/
theorem projectLoop_match (srcBlobs : List (String × BlobContent)) (skDest : Layout)
    (newIndex arch m am idx2 : Json) (rest : List Json) (hex : String) (c : BlobContent)
    (ham : declaredArch m = .ok am) (hb : Json.beq am arch = true)
    (hhex : descriptorHex m = .ok hex)
    (hlb : lookupBlob srcBlobs hex = some c)
    (hset : newIndex.setE "manifests" (.arr [m]) = .ok idx2) :
    projectLoop srcBlobs skDest newIndex arch (m :: rest) =
      .ok { skDest with blobs := storeInsert skDest.blobs hex c, index := idx2 } := by
  simp [projectLoop, ham, hb, hhex, hlb, hset, bind, Except.bind]

/-- make_single_arch_copy depends on its source layout only through the
first entry of the top-level index and the blob store. -/
theorem make_single_arch_copy_src_congr (L L' D : Layout) (m : Json)
    (hb : L.blobs = L'.blobs)
    (hm : L.index.get? "manifests" >>= Json.idx0 = .ok m)
    (hm' : L'.index.get? "manifests" >>= Json.idx0 = .ok m) :
    make_single_arch_copy L D = make_single_arch_copy L' D := by
  rcases hL : L.index.get? "manifests" with e | oms
  · rw [hL] at hm
    simp [bind, Except.bind] at hm
  rcases hL' : L'.index.get? "manifests" with e' | oms'
  · rw [hL'] at hm'
    simp [bind, Except.bind] at hm'
  rw [hL] at hm
  rw [hL'] at hm'
  simp only [bind, Except.bind] at hm hm'
  simp [make_single_arch_copy, hL, hL', hm, hm', bind, Except.bind, hb]

/-! ## Composer lemmas -/

/-- Resolution of each input layout to its output descriptor, in caller
order (the pure content of the composer loop, blob copying aside). -/
def inputDescriptors : List (String × Layout) → Except Err (List Json)
  | [] => .ok []
  | p :: rest => do
    let d ← inputDescriptor p.2
    let ds ← inputDescriptors rest
    .ok (d :: ds)

/-- The destination blob store after the composer loop has copied every
input's blob files, starting from `bs`. -/
def composeBlobsAfter (bs : List (String × BlobContent)) (images : List (String × Layout)) :
    List (String × BlobContent) :=
  images.foldl (fun acc p => copyAllBlobs acc p.2.blobs) bs

/-- The composer loop is the pairing of blob-store merging with per-input
descriptor resolution. -/
theorem composeFold_spec : ∀ (images : List (String × Layout)) (bs : List (String × BlobContent))
    (ds : List Json),
    composeFold (bs, ds) images =
      Except.map (fun ds2 => (composeBlobsAfter bs images, ds ++ ds2)) (inputDescriptors images)
  | [], bs, ds => by simp [composeFold, inputDescriptors, composeBlobsAfter, Except.map]
  | p :: rest, bs, ds => by
    simp only [composeFold, inputDescriptors, bind, Except.bind]
    cases hp : inputDescriptor p.2 with
    | error e => simp [Except.map]
    | ok d =>
      dsimp only
      rw [composeFold_spec rest (copyAllBlobs bs p.2.blobs) (ds ++ [d])]
      cases hr : inputDescriptors rest with
      | error e => simp [Except.map]
      | ok ds2 => simp [Except.map, composeBlobsAfter]

/-- Descriptor resolution yields one descriptor per input. -/
theorem inputDescriptors_length : ∀ (images : List (String × Layout)) (ds : List Json),
    inputDescriptors images = .ok ds → ds.length = images.length
  | [], ds, h => by simp [inputDescriptors] at h; simp [h.symm]
  | p :: rest, ds, h => by
    simp only [inputDescriptors, bind, Except.bind] at h
    cases hp : inputDescriptor p.2 with
    | error e => rw [hp] at h; exact absurd h (by simp)
    | ok d =>
      rw [hp] at h
      dsimp only at h
      cases hr : inputDescriptors rest with
      | error e => rw [hr] at h; exact absurd h (by simp)
      | ok ds2 =>
        rw [hr] at h
        dsimp only at h
        simp only [Except.ok.injEq] at h
        have := inputDescriptors_length rest ds2 hr
        simp [h.symm, this]

/-- The composer loop result is unchanged when one input layout is replaced
by a layout with the same blob store and the same resolved descriptor. -/
theorem composeFold_middle (nm : String) (L L' : Layout) (post : List (String × Layout))
    (hd : inputDescriptor L = inputDescriptor L') (hb : L.blobs = L'.blobs) :
    ∀ (pre : List (String × Layout)) (acc : List (String × BlobContent) × List Json),
      composeFold acc (pre ++ (nm, L) :: post) = composeFold acc (pre ++ (nm, L') :: post)
  | [], acc => by
    simp only [List.nil_append, composeFold, bind, Except.bind, hd, hb]
  | p :: ps, acc => by
    simp only [List.cons_append, composeFold, bind, Except.bind]
    cases inputDescriptor p.2 with
    | error e => rfl
    | ok d => exact composeFold_middle nm L L' post hd hb ps _

/-! ## Claims about the single-arch projector -/

/-- The destination top-level index after projection to arm64 in the
example: skopeo's index with its manifests replaced by the original arm64
descriptor. -/
def projArmIndex : Json :=
  .obj [("schemaVersion", .num 2), ("manifests", .arr [mArm])]

/-- The full destination layout after projecting the example multi-arch
layout to arm64: skopeo's blobs plus the original arm64 manifest blob,
under the rewritten index. -/
def projArmLayout : Layout :=
  { ociLayout := markerDoc,
    index := projArmIndex,
    blobs := [("skb1", .json skManifestArm),
              ("cfgb", .json cfgArmDoc),
              ("layb", .bin "LAYER-ARM"),
              ("bbb1", .json manifestArmDoc)] }

/-- C1: for a multi-arch source layout whose nested image index has a first
element matching the resolved target architecture (all earlier elements
declaring a different architecture), make_single_arch_copy succeeds and the
destination top-level index holds exactly one element — the original
descriptor taken unchanged (every field, annotations included) from the
multi-arch image index. -/
theorem C1_projection_writes_original_descriptor
    (source skDest : Layout) (oms om0 iij nms nm0 nmj cdesc config arch m am idx2 : Json)
    (pre post : List Json) (hex : String) (c : BlobContent)
    (h1 : source.index.get? "manifests" = .ok oms)
    (h2 : oms.idx0 = .ok om0)
    (h3 : readJsonBlobStore source.blobs om0 = .ok iij)
    (h4 : skDest.index.get? "manifests" = .ok nms)
    (h5 : nms.idx0 = .ok nm0)
    (h6 : readJsonBlob skDest nm0 = .ok nmj)
    (h7 : nmj.get? "config" = .ok cdesc)
    (h8 : readJsonBlob skDest cdesc = .ok config)
    (h9 : config.get? "architecture" = .ok arch)
    (h10 : iij.get? "manifests" = .ok (.arr (pre ++ m :: post)))
    (hpre : ∀ x ∈ pre, ∃ ax, declaredArch x = .ok ax ∧ Json.beq ax arch = false)
    (ham : declaredArch m = .ok am) (hbm : Json.beq am arch = true)
    (hhex : descriptorHex m = .ok hex)
    (hlb : lookupBlob source.blobs hex = some c)
    (hset : skDest.index.setE "manifests" (.arr [m]) = .ok idx2) :
    make_single_arch_copy source skDest =
      .ok { skDest with blobs := storeInsert skDest.blobs hex c, index := idx2 } ∧
    idx2.get? "manifests" = .ok (.arr [m]) ∧
    m ∈ pre ++ m :: post := by
  refine ⟨?_, get?_setE _ _ _ _ hset, by simp⟩
  rw [msac_unfold source skDest oms om0 iij nms nm0 nmj cdesc config arch (pre ++ m :: post)
        h1 h2 h3 h4 h5 h6 h7 h8 h9 h10,
      projectLoop_skip source.blobs skDest skDest.index arch pre (m :: post) hpre,
      projectLoop_match source.blobs skDest skDest.index arch m am idx2 post hex c
        ham hbm hhex hlb hset]

/-- Witness for C1: projecting the example multi-arch layout with an arm64
destination yields exactly the original arm64 descriptor, annotations map
included. -/
theorem C1_projection_writes_original_descriptor_witness :
    make_single_arch_copy srcMulti skArm = .ok projArmLayout ∧
    projArmIndex.get? "manifests" = .ok (.arr [mArm]) ∧
    mArm ∈ [mAmd] ++ mArm :: [] :=
  C1_projection_writes_original_descriptor srcMulti skArm
    (.arr [.obj [("mediaType", .str imageIndexMedia), ("digest", .str "sha256:idx1"),
                 ("size", .num 300)]])
    (.obj [("mediaType", .str imageIndexMedia), ("digest", .str "sha256:idx1"),
           ("size", .num 300)])
    nestedIndexDoc
    (.arr [.obj [("mediaType", .str imageManifestMedia), ("digest", .str "sha256:skb1"),
                 ("size", .num 90)]])
    (.obj [("mediaType", .str imageManifestMedia), ("digest", .str "sha256:skb1"),
           ("size", .num 90)])
    skManifestArm
    (.obj [("mediaType", .str configMedia), ("digest", .str "sha256:cfgb"), ("size", .num 50)])
    cfgArmDoc (.str "arm64") mArm (.str "arm64") projArmIndex
    [mAmd] [] "bbb1" (.json manifestArmDoc)
    (by decide) (by decide) (by decide) (by decide) (by decide) (by decide) (by decide)
    (by decide) (by decide) (by decide)
    (by intro x hx; simp at hx; subst hx; exact ⟨.str "amd64", by decide, by decide⟩)
    (by decide) (by decide) (by decide) (by decide) (by decide)

/-- C3 (amended): when no element of the nested image index declares the
resolved architecture, make_single_arch_copy succeeds, returning the
destination layout exactly as the external copy step produced it — the code
has no PlatformNotFound failure path. -/
theorem C3_no_match_succeeds_unchanged
    (source skDest : Layout) (oms om0 iij nms nm0 nmj cdesc config arch : Json)
    (ms : List Json)
    (h1 : source.index.get? "manifests" = .ok oms)
    (h2 : oms.idx0 = .ok om0)
    (h3 : readJsonBlobStore source.blobs om0 = .ok iij)
    (h4 : skDest.index.get? "manifests" = .ok nms)
    (h5 : nms.idx0 = .ok nm0)
    (h6 : readJsonBlob skDest nm0 = .ok nmj)
    (h7 : nmj.get? "config" = .ok cdesc)
    (h8 : readJsonBlob skDest cdesc = .ok config)
    (h9 : config.get? "architecture" = .ok arch)
    (h10 : iij.get? "manifests" = .ok (.arr ms))
    (hall : ∀ x ∈ ms, ∃ ax, declaredArch x = .ok ax ∧ Json.beq ax arch = false) :
    make_single_arch_copy source skDest = .ok skDest := by
  rw [msac_unfold source skDest oms om0 iij nms nm0 nmj cdesc config arch ms
        h1 h2 h3 h4 h5 h6 h7 h8 h9 h10]
  have hskip := projectLoop_skip source.blobs skDest skDest.index arch ms [] hall
  rw [List.append_nil] at hskip
  rw [hskip]
  rfl

/-- Counterexample for C3 as stated: projecting the example multi-arch
layout (platforms amd64 and arm64) with an armv7 destination does not fail
with PlatformNotFound — it succeeds and returns the destination unchanged. -/
theorem C3_counterexample_no_platform_error :
    make_single_arch_copy srcMulti skArmv7 = .ok skArmv7 ∧
    make_single_arch_copy srcMulti skArmv7 ≠ .error Err.platformNotFound :=
  ⟨by decide, by decide⟩

/-- Witness for the amended C3 at the concrete armv7 example. -/
theorem C3_no_match_succeeds_unchanged_witness :
    make_single_arch_copy srcMulti skArmv7 = .ok skArmv7 :=
  C3_no_match_succeeds_unchanged srcMulti skArmv7
    (.arr [.obj [("mediaType", .str imageIndexMedia), ("digest", .str "sha256:idx1"),
                 ("size", .num 300)]])
    (.obj [("mediaType", .str imageIndexMedia), ("digest", .str "sha256:idx1"),
           ("size", .num 300)])
    nestedIndexDoc
    (.arr [.obj [("mediaType", .str imageManifestMedia), ("digest", .str "sha256:skb2"),
                 ("size", .num 91)]])
    (.obj [("mediaType", .str imageManifestMedia), ("digest", .str "sha256:skb2"),
           ("size", .num 91)])
    skManifestV7
    (.obj [("mediaType", .str configMedia), ("digest", .str "sha256:cfgv"), ("size", .num 50)])
    cfgArmv7Doc (.str "armv7") [mAmd, mArm]
    (by decide) (by decide) (by decide) (by decide) (by decide) (by decide) (by decide)
    (by decide) (by decide) (by decide)
    (by
      intro x hx
      simp at hx
      rcases hx with h | h
      · subst h; exact ⟨.str "amd64", by decide, by decide⟩
      · subst h; exact ⟨.str "arm64", by decide, by decide⟩)

/-- C7: under the external copy tool's contract (its output store maps the
selected manifest's config and layer digests to the source's contents, and
contains no digest reachable only from non-selected manifests), projection
produces a store that contains every blob transitively reachable from the
selected manifest — the manifest blob itself, its config blob and all layer
blobs — under unchanged digests with the source's contents, and no blob
reachable only from the non-selected manifests. -/
theorem C7_projection_blob_reachability
    (source skDest : Layout) (oms om0 iij nms nm0 nmj cdesc config arch m am idx2 M cd : Json)
    (pre post ls : List Json) (hex chex : String) (layerHexes : List String)
    (nonSel : String → Prop)
    (h1 : source.index.get? "manifests" = .ok oms)
    (h2 : oms.idx0 = .ok om0)
    (h3 : readJsonBlobStore source.blobs om0 = .ok iij)
    (h4 : skDest.index.get? "manifests" = .ok nms)
    (h5 : nms.idx0 = .ok nm0)
    (h6 : readJsonBlob skDest nm0 = .ok nmj)
    (h7 : nmj.get? "config" = .ok cdesc)
    (h8 : readJsonBlob skDest cdesc = .ok config)
    (h9 : config.get? "architecture" = .ok arch)
    (h10 : iij.get? "manifests" = .ok (.arr (pre ++ m :: post)))
    (hpre : ∀ x ∈ pre, ∃ ax, declaredArch x = .ok ax ∧ Json.beq ax arch = false)
    (ham : declaredArch m = .ok am) (hbm : Json.beq am arch = true)
    (hhex : descriptorHex m = .ok hex)
    (hM : lookupBlob source.blobs hex = some (.json M))
    (hset : skDest.index.setE "manifests" (.arr [m]) = .ok idx2)
    (hMc : M.get? "config" = .ok cd)
    (hchex : descriptorHex cd = .ok chex)
    (hMl : M.get? "layers" = .ok (.arr ls))
    (hlx : ls.mapM descriptorHex = .ok layerHexes)
    (hskHas : ∀ d ∈ chex :: layerHexes,
        lookupBlob skDest.blobs d = lookupBlob source.blobs d ∧
        lookupBlob source.blobs d ≠ none)
    (hclean : ∀ d, nonSel d → lookupBlob skDest.blobs d = none)
    (hdisj : ∀ d, nonSel d → d ∉ hex :: chex :: layerHexes) :
    make_single_arch_copy source skDest =
      .ok { skDest with blobs := storeInsert skDest.blobs hex (.json M), index := idx2 } ∧
    (∀ d ∈ hex :: chex :: layerHexes,
        lookupBlob (storeInsert skDest.blobs hex (.json M)) d = lookupBlob source.blobs d ∧
        lookupBlob (storeInsert skDest.blobs hex (.json M)) d ≠ none) ∧
    (∀ d, nonSel d → lookupBlob (storeInsert skDest.blobs hex (.json M)) d = none) := by
  refine ⟨?_, ?_, ?_⟩
  · rw [msac_unfold source skDest oms om0 iij nms nm0 nmj cdesc config arch (pre ++ m :: post)
          h1 h2 h3 h4 h5 h6 h7 h8 h9 h10,
        projectLoop_skip source.blobs skDest skDest.index arch pre (m :: post) hpre,
        projectLoop_match source.blobs skDest skDest.index arch m am idx2 post hex (.json M)
          ham hbm hhex hM hset]
  · intro d hd
    by_cases hdhex : d = hex
    · subst hdhex
      rw [lookupBlob_storeInsert_self]
      exact ⟨hM.symm, by simp⟩
    · have hd' : d ∈ chex :: layerHexes := by
        rcases List.mem_cons.mp hd with h | h
        · exact absurd h hdhex
        · exact h
      rw [lookupBlob_storeInsert_ne skDest.blobs hex d (.json M) hdhex]
      obtain ⟨ha, hb⟩ := hskHas d hd'
      exact ⟨ha, by rw [ha]; exact hb⟩
  · intro d hnd
    have hne : d ≠ hex := by
      intro hc
      exact hdisj d hnd (hc ▸ List.mem_cons_self hex (chex :: layerHexes))
    rw [lookupBlob_storeInsert_ne skDest.blobs hex d (.json M) hne]
    exact hclean d hnd

/-- Witness for C7: in the arm64 projection of the example layout, the
destination holds the original manifest blob and shares the config blob with
the source, while the amd64-only layer blob is absent. -/
theorem C7_projection_blob_reachability_witness :
    make_single_arch_copy srcMulti skArm = .ok projArmLayout ∧
    lookupBlob projArmLayout.blobs "bbb1" = some (.json manifestArmDoc) ∧
    lookupBlob projArmLayout.blobs "cfgb" = lookupBlob srcMulti.blobs "cfgb" ∧
    lookupBlob projArmLayout.blobs "laya" = none := by
  have h := C7_projection_blob_reachability srcMulti skArm
    (.arr [.obj [("mediaType", .str imageIndexMedia), ("digest", .str "sha256:idx1"),
                 ("size", .num 300)]])
    (.obj [("mediaType", .str imageIndexMedia), ("digest", .str "sha256:idx1"),
           ("size", .num 300)])
    nestedIndexDoc
    (.arr [.obj [("mediaType", .str imageManifestMedia), ("digest", .str "sha256:skb1"),
                 ("size", .num 90)]])
    (.obj [("mediaType", .str imageManifestMedia), ("digest", .str "sha256:skb1"),
           ("size", .num 90)])
    skManifestArm
    (.obj [("mediaType", .str configMedia), ("digest", .str "sha256:cfgb"), ("size", .num 50)])
    cfgArmDoc (.str "arm64") mArm (.str "arm64") projArmIndex manifestArmDoc
    (.obj [("mediaType", .str configMedia), ("digest", .str "sha256:cfgb"), ("size", .num 50)])
    [mAmd] []
    [.obj [("mediaType", .str layerMedia), ("digest", .str "sha256:layb"), ("size", .num 10)]]
    "bbb1" "cfgb" ["layb"]
    (fun d => d = "laya")
    (by decide) (by decide) (by decide) (by decide) (by decide) (by decide) (by decide)
    (by decide) (by decide) (by decide)
    (by intro x hx; simp at hx; subst hx; exact ⟨.str "amd64", by decide, by decide⟩)
    (by decide) (by decide) (by decide) (by decide) (by decide) (by decide) (by decide)
    (by decide) (by decide)
    (by decide)
    (by intro d hd; subst hd; decide)
    (by intro d hd; subst hd; decide)
  refine ⟨h.1, ?_, ?_, ?_⟩
  · have := (h.2.1 "bbb1" (by simp)).1
    simpa [projArmLayout] using this
  · have := (h.2.1 "cfgb" (by simp)).1
    simpa [projArmLayout] using this
  · have := h.2.2 "laya" rfl
    simpa [projArmLayout] using this

/-! ## Claims about the installer path -/

/-- C4 (amended): when the document resolved from the first index entry has a
mediaType other than image-index, the install path derives no single-arch
copy — it proceeds directly on the given layout, in every outcome. -/
theorem C4_single_arch_no_copy
    (sk : Layout → Layout) (org : String → Option String) (fuel : Nat) (L : Layout)
    (ms m0 mj mt : Json)
    (hL : L.index.get? "manifests" = .ok ms)
    (hm0 : ms.idx0 = .ok m0)
    (hmj : readJsonBlob L m0 = .ok mj)
    (hmt : mj.get? "mediaType" = .ok mt)
    (hne : Json.beq mt (.str imageIndexMedia) = false) :
    Cmd.singleArchCopy ∉ (installFromPath sk org (fuel + 1) L).1 := by
  have hscr : (do
      let ms2 ← L.index.get? "manifests"
      let m02 ← ms2.idx0
      readJsonBlob L m02 : Except Err Json) = .ok mj := by
    simp [hL, hm0, hmj, bind, Except.bind]
  simp only [installFromPath, hscr, hmt, hne, Bool.false_eq_true, if_false]
  rcases hc : (do
      let cd ← mj.get? "config"
      readJsonBlob L cd : Except Err Json) with e | cj
  · simp
  · rcases hr : refLookup cj with e | oref
    · simp [hr]
    · rcases oref with _ | rj
      · simp [hr]
      · cases rj with
        | str s =>
          rcases hs : shortRef s with e | short
          · simp [hr, hs]
          · by_cases ho : org short = some "flatpak-module-tools"
            · simp [hr, hs, ho]
            · simp [hr, hs, ho]
        | num n => simp [hr]
        | arr xs => simp [hr]
        | obj fs => simp [hr]

/-- Counterexample for C4 as stated: a layout whose top-level index entry
declares the image-manifest media type (not image-index) while the blob it
references is an image-index document; the code inspects the blob, so it
derives a single-arch copy instead of returning the layout unchanged. -/
theorem C4_counterexample_descriptor_mediatype_ignored :
    ((mismatchLayout.index.get? "manifests" >>= Json.idx0) >>=
        fun d => d.get? "mediaType") = .ok (.str imageManifestMedia) ∧
    Json.str imageManifestMedia ≠ Json.str imageIndexMedia ∧
    Cmd.singleArchCopy ∈ (installFromPath (fun _ => skArm) (fun _ => none) 2 mismatchLayout).1 := by
  refine ⟨by decide, by decide, by decide⟩

/-- Witness for the amended C4 at the example single-arch layout. -/
theorem C4_single_arch_no_copy_witness :
    Cmd.singleArchCopy ∉ (installFromPath (fun _ => skArm) (fun _ => none) 1 demoX86).1 :=
  C4_single_arch_no_copy (fun _ => skArm) (fun _ => none) 0 demoX86
    (.arr [mX86single]) mX86single manifestAmdDoc (.str imageManifestMedia)
    (by decide) (by decide) (by decide) (by decide) (by decide)

/-- C9: when the resolved config document has no org.flatpak.ref label (the
config or Labels mappings may be absent entirely), the single-arch install
path stops with the RuntimeError before issuing any external command, so no
registration or installation step runs. -/
theorem C9_missing_ref_runs_nothing
    (sk : Layout → Layout) (org : String → Option String) (fuel : Nat) (L : Layout)
    (ms m0 mj mt cd cj : Json)
    (hL : L.index.get? "manifests" = .ok ms)
    (hm0 : ms.idx0 = .ok m0)
    (hmj : readJsonBlob L m0 = .ok mj)
    (hmt : mj.get? "mediaType" = .ok mt)
    (hne : Json.beq mt (.str imageIndexMedia) = false)
    (hcd : mj.get? "config" = .ok cd)
    (hcj : readJsonBlob L cd = .ok cj)
    (href : refLookup cj = .ok none) :
    installFromPath sk org (fuel + 1) L = ([], some Err.runtimeNoRef) := by
  have hscr : (do
      let ms2 ← L.index.get? "manifests"
      let m02 ← ms2.idx0
      readJsonBlob L m02 : Except Err Json) = .ok mj := by
    simp [hL, hm0, hmj, bind, Except.bind]
  have hcc : (do
      let cd2 ← mj.get? "config"
      readJsonBlob L cd2 : Except Err Json) = .ok cj := by
    simp [hcd, hcj, bind, Except.bind]
  simp only [installFromPath, hscr, hmt, hne, Bool.false_eq_true, if_false, hcc, href]

/-- Witness for C9: the example layout whose config lacks Labels makes the
installer raise before any command. -/
theorem C9_missing_ref_runs_nothing_witness :
    installFromPath (fun _ => skArm) (fun _ => none) 1 demoNoRef =
      ([], some Err.runtimeNoRef) :=
  C9_missing_ref_runs_nothing (fun _ => skArm) (fun _ => none) 0 demoNoRef
    (.arr [.obj [("mediaType", .str imageManifestMedia), ("digest", .str "sha256:nnn1"),
                 ("size", .num 80)]])
    (.obj [("mediaType", .str imageManifestMedia), ("digest", .str "sha256:nnn1"),
           ("size", .num 80)])
    manifestNoLabelsDoc (.str imageManifestMedia)
    (.obj [("mediaType", .str configMedia), ("digest", .str "sha256:cfgn"), ("size", .num 40)])
    cfgNoLabelsDoc
    (by decide) (by decide) (by decide) (by decide) (by decide) (by decide) (by decide)
    (by decide)

/-- C10: both the install path and the composer consult only the first
element of a layout's top-level index manifests sequence: replacing the
manifests list by its first element alone changes neither operation's
result (for the install path, provided the external copy tool, which is
handed the whole source directory, behaves the same on both). -/
theorem C10_first_entry_only
    (sk : Layout → Layout) (org : String → Option String) (fuel : Nat)
    (hash : String → String) (pre post : List (String × Layout)) (nm : String)
    (L : Layout) (m idx2 : Json) (tail : List Json)
    (hL : L.index.get? "manifests" = .ok (.arr (m :: tail)))
    (htwo : tail ≠ [])
    (hset : L.index.setE "manifests" (.arr [m]) = .ok idx2)
    (hsk : sk L = sk { L with index := idx2 }) :
    installFromPath sk org fuel L =
      installFromPath sk org fuel { L with index := idx2 } ∧
    make_multiarch_image hash (pre ++ (nm, L) :: post) =
      make_multiarch_image hash (pre ++ (nm, { L with index := idx2 }) :: post) := by
  have hL' : ({ L with index := idx2 } : Layout).index.get? "manifests" = .ok (.arr [m]) :=
    get?_setE L.index idx2 (.arr [m]) "manifests" hset
  constructor
  · cases fuel with
    | zero => rfl
    | succ n =>
      have hscrL : (do
          let ms ← L.index.get? "manifests"
          let m0 ← ms.idx0
          readJsonBlob L m0 : Except Err Json) = readJsonBlob L m := by
        simp [hL, bind, Except.bind, Json.idx0]
      have hscrL' : (do
          let ms ← ({ L with index := idx2 } : Layout).index.get? "manifests"
          let m0 ← ms.idx0
          readJsonBlob { L with index := idx2 } m0 : Except Err Json) = readJsonBlob L m := by
        simp [hL', bind, Except.bind, Json.idx0, readJsonBlob]
      simp only [installFromPath, hscrL, hscrL']
      rcases hmj : readJsonBlob L m with e | mj
      · rfl
      · dsimp only
        rcases hmt : mj.get? "mediaType" with e | mt
        · rfl
        · dsimp only
          by_cases hb : Json.beq mt (.str imageIndexMedia) = true
          · have hmm : make_single_arch_copy L (sk L) =
                make_single_arch_copy { L with index := idx2 } (sk { L with index := idx2 }) := by
              rw [hsk]
              exact make_single_arch_copy_src_congr L { L with index := idx2 }
                (sk { L with index := idx2 }) m rfl
                (by simp [hL, bind, Except.bind, Json.idx0])
                (by simp [hL', bind, Except.bind, Json.idx0])
            simp only [hb, hmm, if_true]
          · have hb' : Json.beq mt (.str imageIndexMedia) = false := by
              simpa using hb
            simp only [hb', Bool.false_eq_true, if_false]
            rfl
  · have hd : inputDescriptor L = inputDescriptor { L with index := idx2 } := by
      simp [inputDescriptor, hL, hL', bind, Except.bind, Json.idx0, readJsonBlob]
    have hmid := composeFold_middle nm L { L with index := idx2 } post hd rfl pre ([], [])
    simp only [make_multiarch_image, bind, Except.bind, hmid]

/-- Demo descriptor for a second, ignored top-level index entry. -/
def junkDesc : Json :=
  .obj [("mediaType", .str imageManifestMedia), ("digest", .str "sha256:jjj1"),
        ("size", .num 77)]

/-- The example x86_64 layout with a second, ignored entry appended to its
top-level index. -/
def demoTwo : Layout :=
  { ociLayout := markerDoc,
    index := .obj [("schemaVersion", .num 2), ("manifests", .arr [mX86single, junkDesc])],
    blobs := demoX86.blobs }

/-- Witness for C10 at the example two-entry layout. -/
theorem C10_first_entry_only_witness :
    installFromPath (fun _ => skArm) (fun _ => none) 1 demoTwo =
      installFromPath (fun _ => skArm) (fun _ => none) 1
        { demoTwo with index := .obj [("schemaVersion", .num 2),
                                      ("manifests", .arr [mX86single])] } ∧
    make_multiarch_image h0 ([] ++ ("x86_64", demoTwo) :: [("aarch64", demoArm)]) =
      make_multiarch_image h0
        ([] ++ ("x86_64", { demoTwo with index := .obj [("schemaVersion", .num 2),
                                                        ("manifests", .arr [mX86single])] })
          :: [("aarch64", demoArm)]) :=
  C10_first_entry_only (fun _ => skArm) (fun _ => none) 1 h0 [] [("aarch64", demoArm)]
    "x86_64" demoTwo mX86single
    (.obj [("schemaVersion", .num 2), ("manifests", .arr [mX86single])])
    [junkDesc]
    (by decide) (by decide) (by decide) rfl

/-! ## Claims about the composer and blob paths -/

/-- A concrete single-input composition. -/
def c2Result : Except Err Layout := make_multiarch_image h0 [("x86_64", demoX86)]

/-- The size field of the descriptor the composer records in the top-level
index. -/
def c2DeclaredSize : Except Err Json := do
  let out ← c2Result
  let ms ← out.index.get? "manifests"
  let d ← ms.idx0
  d.get? "size"

/-- The byte length of the image-index blob the composer writes (stored
under the digest of its contents). -/
def c2IndexBlobLength : Option Nat :=
  match c2Result with
  | .ok out =>
    match lookupBlob out.blobs (h0 "") with
    | some (.bin s) => some s.length
    | _ => none
  | .error _ => none

set_option maxRecDepth 8192 in
/-- C2 (failing evaluation): the composer records size 64 — the length of
the hex digest STRING (`len(image_index_digest)`, make-test-content.py line
193) — in the top-level index descriptor, while the image-index blob that
descriptor references is 512 bytes long, so `len(bytes) == size` fails for
the descriptor the composer itself creates. -/
theorem C2_composer_records_digest_length_as_size :
    c2DeclaredSize = .ok (.num 64) ∧
    c2IndexBlobLength = some 512 ∧
    (64 : Nat) ≠ 512 :=
  ⟨by decide, by decide, by decide⟩

/-- Whether a composition run succeeded. -/
def isOkE (e : Except Err Layout) : Bool :=
  match e with
  | .ok _ => true
  | .error _ => false

/-- Counterexample for C5 as stated: composing two inputs that resolve to
the identical platform succeeds (no DuplicatePlatform), and composing the
empty input set succeeds (no EmptyComposition). -/
theorem C5_counterexample_no_input_checks :
    isOkE (make_multiarch_image h0 [("a", demoX86), ("b", demoX86)]) = true ∧
    make_multiarch_image h0 [("a", demoX86), ("b", demoX86)] ≠
      .error Err.duplicatePlatform ∧
    isOkE (make_multiarch_image h0 []) = true ∧
    make_multiarch_image h0 [] ≠ .error Err.emptyComposition :=
  ⟨by decide, by decide, by decide, by decide⟩

/-- C5 (amended): the composer checks neither platform uniqueness nor
nonemptiness — two inputs resolving to the identical platform are both kept
in the output index, in order, and the empty input set composes successfully
into a layout whose image index document has an empty manifests list. -/
theorem C5_duplicates_kept_empty_ok
    (hash : String → String) (n1 n2 : String) (L1 L2 : Layout) (d1 d2 : Json)
    (hd1 : inputDescriptor L1 = .ok d1)
    (hd2 : inputDescriptor L2 = .ok d2)
    (hplat : d1.get? "platform" = d2.get? "platform") :
    make_multiarch_image hash [(n1, L1), (n2, L2)] =
      .ok (finishImage hash (copyAllBlobs (copyAllBlobs [] L1.blobs) L2.blobs) [d1, d2]) ∧
    make_multiarch_image hash [] = .ok (finishImage hash [] []) := by
  constructor
  · simp [make_multiarch_image, composeFold, hd1, hd2, bind, Except.bind]
  · rfl

/-- The example x86_64 descriptor after the composer adds the platform from
its config. -/
def dX86plat : Json :=
  .obj [("mediaType", .str imageManifestMedia),
        ("digest", .str "sha256:aaa1"),
        ("size", .num 100),
        ("annotations", .obj [("org.opencontainers.image.ref.name",
                               .str "app/net.fishsoup.Hello/x86_64/stable")]),
        ("platform", .obj [("os", .str "linux"), ("architecture", .str "amd64")])]

/-- The example aarch64 descriptor after the composer adds the platform from
its config. -/
def dArmPlat : Json :=
  .obj [("mediaType", .str imageManifestMedia),
        ("digest", .str "sha256:bbb1"),
        ("size", .num 100),
        ("annotations", .obj [("org.opencontainers.image.ref.name",
                               .str "app/net.fishsoup.Hello/aarch64/stable")]),
        ("platform", .obj [("os", .str "linux"), ("architecture", .str "arm64")])]

/-- Witness for the amended C5: composing the same x86_64 input twice keeps
both descriptors; composing nothing yields the empty-manifest layout. -/
theorem C5_duplicates_kept_empty_ok_witness :
    make_multiarch_image h0 [("a", demoX86), ("b", demoX86)] =
      .ok (finishImage h0 (copyAllBlobs (copyAllBlobs [] demoX86.blobs) demoX86.blobs)
            [dX86plat, dX86plat]) ∧
    make_multiarch_image h0 [] = .ok (finishImage h0 [] []) :=
  C5_duplicates_kept_empty_ok h0 "a" "b" demoX86 demoX86 dX86plat dX86plat
    (by decide) (by decide) rfl

/-- C6: whenever per-input resolution succeeds, the composer succeeds; its
image index document lists exactly one descriptor per input, in the caller
mapping's insertion order — each being resolved by `inputDescriptor`, the
input's manifest descriptor with a platform field added from its resolved
config — and the serialized document is stored as a blob under its digest. -/
theorem C6_composer_one_descriptor_per_input_in_order
    (hash : String → String) (images : List (String × Layout)) (ds : List Json)
    (hds : inputDescriptors images = .ok ds) :
    make_multiarch_image hash images =
      .ok (finishImage hash (composeBlobsAfter [] images) ds) ∧
    ds.length = images.length ∧
    lookupBlob (finishImage hash (composeBlobsAfter [] images) ds).blobs
        (hash (dumpsJson (imageIndexDoc ds) 0)) =
      some (.bin (dumpsJson (imageIndexDoc ds) 0)) := by
  refine ⟨?_, inputDescriptors_length images ds hds, ?_⟩
  · simp [make_multiarch_image, composeFold_spec images [] [], hds, Except.map,
          bind, Except.bind]
  · exact lookupBlob_storeInsert_self (composeBlobsAfter [] images)
      (hash (dumpsJson (imageIndexDoc ds) 0)) (.bin (dumpsJson (imageIndexDoc ds) 0))

/-- The example two-input composition, x86_64 first. -/
def demoImagesTwo : List (String × Layout) := [("x86_64", demoX86), ("aarch64", demoArm)]

/-- Witness for C6 at the example two-input composition. -/
theorem C6_composer_one_descriptor_per_input_in_order_witness :
    make_multiarch_image h0 demoImagesTwo =
      .ok (finishImage h0 (composeBlobsAfter [] demoImagesTwo) [dX86plat, dArmPlat]) ∧
    ([dX86plat, dArmPlat] : List Json).length = demoImagesTwo.length ∧
    lookupBlob (finishImage h0 (composeBlobsAfter [] demoImagesTwo) [dX86plat, dArmPlat]).blobs
        (h0 (dumpsJson (imageIndexDoc [dX86plat, dArmPlat]) 0)) =
      some (.bin (dumpsJson (imageIndexDoc [dX86plat, dArmPlat]) 0)) :=
  C6_composer_one_descriptor_per_input_in_order h0 demoImagesTwo [dX86plat, dArmPlat]
    (by decide)

/-- C8 (amended): blob path resolution in both scripts returns exactly
base/blobs/sha256/hex for a descriptor whose digest string starts with
"sha256:", and fails by ASSERTION (AssertionError from the bare `assert`,
not a designed UnsupportedDigestAlgorithm error) for every other digest
string. -/
theorem C8_resolve_blob_path
    (base : String) (d : Json) (s : String)
    (hd : d.get? "digest" = .ok (.str s)) :
    (s.take 7 = "sha256:" →
       get_path_from_descriptor base d = .ok (base ++ "/blobs/sha256/" ++ s.drop 7) ∧
       blob_path base d = .ok (base ++ "/blobs/sha256/" ++ s.drop 7)) ∧
    (s.take 7 ≠ "sha256:" →
       get_path_from_descriptor base d = .error .assertionFailed ∧
       blob_path base d = .error .assertionFailed) := by
  constructor <;> intro h <;> constructor <;>
    simp [get_path_from_descriptor, blob_path, hd, h, bind, Except.bind]

/-- Counterexample for C8 as stated: on a sha512 digest both path functions
fail with the assertion error, not with the designed
UnsupportedDigestAlgorithm error the claim names. -/
theorem C8_counterexample_assertion_not_designed_error :
    get_path_from_descriptor "base" d512 = .error Err.assertionFailed ∧
    get_path_from_descriptor "base" d512 ≠ .error Err.unsupportedDigestAlgorithm ∧
    blob_path "base" d512 = .error Err.assertionFailed ∧
    blob_path "base" d512 ≠ .error Err.unsupportedDigestAlgorithm :=
  ⟨by decide, by decide, by decide, by decide⟩

/-- Witness for the amended C8 on a sha256 descriptor. -/
theorem C8_resolve_blob_path_witness :
    get_path_from_descriptor "base" mX86single =
      .ok ("base" ++ "/blobs/sha256/" ++ ("sha256:aaa1").drop 7) ∧
    blob_path "base" mX86single =
      .ok ("base" ++ "/blobs/sha256/" ++ ("sha256:aaa1").drop 7) :=
  (C8_resolve_blob_path "base" mX86single "sha256:aaa1" (by decide)).1 (by decide)
